import Mathlib

/-!
Verification of src/scripts/validate_lessons.py.

The script is a single-pass validator over a JSON curriculum catalog.  We
shallowly embed the parsed JSON values, the per-lesson checks, the
cross-lesson coverage check and the `main` driver, modelling the Python
runtime behaviour that is observable here: `dict.get` raises
`AttributeError` on non-dict receivers, set insertion and membership raise
`TypeError` on unhashable values, `in` raises `TypeError` on non-container
right operands, iteration raises `TypeError` on non-iterables, and the
summary line of `main` raises `TypeError` when a grade is not a string
(either in `sorted` or in `", ".join`).  Fallible steps live in
`Except PyErr`; an uncaught exception makes the process exit with code 1.

JSON numbers are modelled as integers: the script never computes with
numeric values (it only tests presence and truthiness, and `0` is the only
falsy number that matters), so this loses nothing claim-relevant.
`Json.obj` stands for a dict produced by `json.loads`, whose keys are
distinct; lookup takes the first matching binding.
-/

namespace AxAcademy

/-- A parsed JSON document, as produced by `json.loads`. -/
inductive Json where
  | null
  | bool (b : Bool)
  | num (n : Int)
  | str (s : String)
  | arr (xs : List Json)
  | obj (kvs : List (String × Json))

/-- The Python exceptions that the script can raise after a successful
parse: `AttributeError` (calling `.get` on a non-dict) and `TypeError`
(unhashable values, non-iterables, `in` on a non-container, and the
`sorted`/`join` failures in the summary line). -/
inductive PyErr where
  | attributeError
  | typeError
deriving DecidableEq

/-- First binding of a key in a dict, mirroring a `json.loads` dict
(distinct keys). -/
def lookupKey (k : String) : List (String × Json) → Option Json
  | [] => none
  | (k2, v) :: rest => if k2 == k then some v else lookupKey k rest

/-- `d.get(key, default)` on a dict; `AttributeError` on any other value. -/
def Json.get (j : Json) (key : String) (dflt : Json) : Except PyErr Json :=
  match j with
  | .obj kvs => .ok ((lookupKey key kvs).getD dflt)
  | _ => .error .attributeError

/-- Total version of `d.get(key, default)` used in theorem statements; it
agrees with `Json.get` whenever the latter succeeds. -/
def fieldD (j : Json) (key : String) (dflt : Json) : Json :=
  match j with
  | .obj kvs => (lookupKey key kvs).getD dflt
  | _ => dflt

/-- Python truthiness of a parsed JSON value: `None`, `False`, `0`, `""`,
`[]` and `\x7b\x7d` are falsy. -/
def Json.falsy : Json → Bool
  | .null => true
  | .bool b => !b
  | .num n => n == 0
  | .str s => s == ""
  | .arr xs => xs.isEmpty
  | .obj kvs => kvs.isEmpty

/-- Python hashability of a parsed JSON value: lists and dicts are
unhashable. -/
def Json.hashable : Json → Bool
  | .arr _ => false
  | .obj _ => false
  | _ => true

/-- Whether the value is a string. -/
def Json.isStr : Json → Bool
  | .str _ => true
  | _ => false

/-- The underlying string of a string value (only used under `isStr`). -/
def Json.asStr : Json → String
  | .str s => s
  | _ => ""

/-- Python `==` restricted to the comparisons the script performs: both
operands are hashable scalars, or one side is a string.  Python unifies
booleans with integers (`True == 1`); containers never compare equal to
scalars, and the script never compares two containers (they are rejected
as unhashable before any comparison). -/
def pyEq (a b : Json) : Bool :=
  match a, b with
  | .null, .null => true
  | .bool x, .bool y => x == y
  | .bool x, .num m => (if x then (1 : Int) else 0) == m
  | .num n, .bool y => n == (if y then (1 : Int) else 0)
  | .num n, .num m => n == m
  | .str s, .str t => s == t
  | _, _ => false

mutual
/-- Python `repr` of a parsed JSON value (string escaping is not modelled;
no string in any input considered here needs it). -/
def pyRepr : Json → String
  | .null => "None"
  | .bool b => cond b "True" "False"
  | .num n => toString n
  | .str s => "\x27" ++ s ++ "\x27"
  | .arr xs => "[" ++ reprItems xs ++ "]"
  | .obj kvs => "\x7b" ++ reprFields kvs ++ "\x7d"
def reprItems : List Json → String
  | [] => ""
  | [x] => pyRepr x
  | x :: y :: rest => pyRepr x ++ ", " ++ reprItems (y :: rest)
def reprFields : List (String × Json) → String
  | [] => ""
  | [(k, v)] => "\x27" ++ k ++ "\x27: " ++ pyRepr v
  | (k, v) :: y :: rest => "\x27" ++ k ++ "\x27: " ++ pyRepr v ++ ", " ++ reprFields (y :: rest)
end

/-- Python `str` of a parsed JSON value, as used by f-string interpolation:
identical to `repr` except on strings, which render verbatim. -/
def pyStr (j : Json) : String :=
  match j with
  | .null => "None"
  | .bool b => cond b "True" "False"
  | .num n => toString n
  | .str s => s
  | .arr xs => pyRepr (.arr xs)
  | .obj kvs => pyRepr (.obj kvs)

/-- Lexicographic comparison of character lists by code point, as Python
compares strings. -/
def charListLe : List Char → List Char → Bool
  | [], _ => true
  | _ :: _, [] => false
  | a :: as, b :: bs => if a < b then true else if b < a then false else charListLe as bs

/-- Python `<=` on strings. -/
def pyStrLe (a b : String) : Bool := charListLe a.data b.data

/-- Insert a string into a sorted list of strings. -/
def insertStr (s : String) : List String → List String
  | [] => [s]
  | t :: rest => if pyStrLe s t then s :: t :: rest else t :: insertStr s rest

/-- Python `sorted` on a list of strings (insertion sort; the order is
total, so this agrees with any sort). -/
def pySortedStr : List String → List String
  | [] => []
  | s :: rest => insertStr s (pySortedStr rest)

/-- Python `", ".join`. -/
def joinComma : List String → String
  | [] => ""
  | [s] => s
  | s :: t :: rest => s ++ ", " ++ joinComma (t :: rest)

/-- Python `str` of a list of strings (each element shown with `repr`). -/
def strListRepr (xs : List String) : String :=
  "[" ++ joinComma (xs.map (fun s => "\x27" ++ s ++ "\x27")) ++ "]"

/-- Does `startChars` begin `hay`? -/
def headMatch : List Char → List Char → Bool
  | [], _ => true
  | _ :: _, [] => false
  | a :: as, b :: bs => a == b && headMatch as bs

/-- Is `needle` a contiguous run of `hay`? -/
def subChars (needle : List Char) : List Char → Bool
  | [] => headMatch needle []
  | c :: rest => headMatch needle (c :: rest) || subChars needle rest

/-- Python `needle in hay` for strings (substring containment). -/
def substrCheck (needle hay : String) : Bool := subChars needle.data hay.data

/-- Python iteration over a parsed JSON value: lists yield their elements,
strings their characters, dicts their keys; anything else raises
`TypeError`. -/
def pyIter : Json → Except PyErr (List Json)
  | .arr xs => .ok xs
  | .str s => .ok (s.data.map (fun c => .str (String.mk [c])))
  | .obj kvs => .ok (kvs.map (fun kv => .str kv.fst))
  | _ => .error .typeError

/-- Python `len` of a parsed JSON value. -/
def pyLen : Json → Except PyErr Nat
  | .arr xs => .ok xs.length
  | .str s => .ok s.length
  | .obj kvs => .ok kvs.length
  | _ => .error .typeError

/-- Membership of a parsed value in a Python set of string literals, such
as `variant not in REQUIRED_VARIANTS`: hashes the left operand first, so
unhashable values raise `TypeError`. -/
def strSetMem (v : Json) (elems : List String) : Bool :=
  elems.any (fun s => pyEq v (.str s))

/-- Fallible form of `strSetMem` mirroring the `TypeError` on unhashable
left operands. -/
def pyInStrSet (v : Json) (elems : List String) : Except PyErr Bool :=
  if v.hashable then .ok (strSetMem v elems) else .error .typeError

/-- Total form of Python `needle in container` for a string needle:
key membership for dicts, element equality for lists, substring test for
strings; `false` elsewhere (those cases raise, see `pyContains`). -/
def containsB (needle : String) : Json → Bool
  | .obj kvs => kvs.any (fun kv => kv.fst == needle)
  | .arr xs => xs.any (fun x => pyEq (.str needle) x)
  | .str s => substrCheck needle s
  | _ => false

/-- Python `needle in container` for a string needle; `TypeError` when the
right operand is not a container. -/
def pyContains (needle : String) : Json → Except PyErr Bool
  | .obj kvs => .ok (containsB needle (.obj kvs))
  | .arr xs => .ok (containsB needle (.arr xs))
  | .str s => .ok (containsB needle (.str s))
  | _ => .error .typeError

/-- `REQUIRED_VARIANTS` of the script.  In Python this is a set literal;
only its membership view and its `sorted` view are ever used, so a list of
its (distinct) elements is a faithful model. -/
def REQUIRED_VARIANTS : List String := ["practice", "challenge", "remediation"]

/-- `REQUIRED_DIFFICULTIES` of the script. -/
def REQUIRED_DIFFICULTIES : List String := ["emerging", "developing", "secure", "extending"]

/-- The `variants_by_strand` accumulator: a `defaultdict(set)` keyed by
`(grade, strandID)`, in first-touch insertion order; each group's variant
set is kept as a duplicate-free list in insertion order (set iteration
order is never observed — the set is only compared and subtracted). -/
abbrev GroupMap := List ((Json × Json) × List Json)

/-- Python `==` on the `(grade, strand)` tuple keys. -/
def pairEq (a b : Json × Json) : Bool := pyEq a.1 b.1 && pyEq a.2 b.2

/-- `variants_by_strand[(grade, strand)].add(variant)`
(src/scripts/validate_lessons.py:38): find the group of the key, create it
if absent, and insert the variant if no `==`-equal element is present. -/
def addVariant (groups : GroupMap) (key : Json × Json) (v : Json) : GroupMap :=
  match groups with
  | [] => [(key, [v])]
  | (k, vs) :: rest =>
    if pairEq k key then
      (k, if vs.any (fun w => pyEq w v) then vs else vs ++ [v]) :: rest
    else
      (k, vs) :: addVariant rest key v

/-- Group lookup by tuple key (Python `==` on keys). -/
def lookupGroup : GroupMap → (Json × Json) → Option (List Json)
  | [], _ => none
  | (k, vs) :: rest, key => if pairEq k key then some vs else lookupGroup rest key

/-- `variants != REQUIRED_VARIANTS` (src/scripts/validate_lessons.py:65),
as set equality: every required variant is present and every seen variant
is required. -/
def setEqStrSet (vs : List Json) (req : List String) : Bool :=
  req.all (fun s => vs.any (fun v => pyEq v (.str s))) &&
  vs.all (fun v => req.any (fun s => pyEq v (.str s)))

/-- `REQUIRED_VARIANTS - variants` (src/scripts/validate_lessons.py:66):
the required names with no `==`-equal element among the seen variants. -/
def setDiffStr (req : List String) (vs : List Json) : List String :=
  req.filter (fun s => !(vs.any (fun v => pyEq v (.str s))))

/-- The two checks on one item of a lesson
(src/scripts/validate_lessons.py:57-62). `label` is `str(lid)` and `idx`
the 0-based `enumerate` index. -/
def itemStep (label : String) (idx : Nat) (item : Json) : Except PyErr (List String) := do
  let hints ← item.get "hints" .null
  let scaffolds ← item.get "scaffolds" .null
  return (if hints.falsy then
            [label ++ " item " ++ toString (idx + 1) ++ ": must include at least one hint"]
          else []) ++
         (if scaffolds.falsy then
            [label ++ " item " ++ toString (idx + 1) ++ ": must include at least one scaffold"]
          else [])

/-- The messages contributed by the `for index, item in enumerate(...)`
loop, starting at index `idx`. -/
def itemMsgs (label : String) : List Json → Nat → Except PyErr (List String)
  | [], _ => .ok []
  | item :: rest, idx => do
      let m ← itemStep label idx item
      let ms ← itemMsgs label rest (idx + 1)
      return m ++ ms

/-- The body of the per-lesson loop (src/scripts/validate_lessons.py:31-62)
for one lesson: yields the `(grade, strand)` group key, the variant that is
added to that group, and the violation messages the lesson contributes, in
emission order.  The shared `errors` list of the script is append-only and
its increments depend only on the lesson, so returning the increment is an
equivalent rendering; the fallible operations appear in source order, so a
raising lesson raises with the same first exception as in Python. -/
def lessonStep (lesson : Json) : Except PyErr ((Json × Json) × Json × List String) := do
  let lid ← lesson.get "id" (.str "<missing>")
  let grade ← lesson.get "grade" (.str "<missing>")
  let strand ← lesson.get "strandID" (.str "<missing>")
  let variant ← lesson.get "variant" .null
  let difficulty ← lesson.get "difficulty" .null
  -- variants_by_strand[(grade, strand)].add(variant) hashes the tuple key
  -- and then the added element
  if grade.hashable && strand.hashable && variant.hashable then do
    let objectives ← lesson.get "objectives" .null
    let vOk ← pyInStrSet variant REQUIRED_VARIANTS
    let dOk ← pyInStrSet difficulty REQUIRED_DIFFICULTIES
    let hints ← lesson.get "hints" .null
    let scaffolds ← lesson.get "scaffolds" .null
    let masteryRaw ← lesson.get "masteryRule" .null
    let mastery := if masteryRaw.falsy then Json.obj [] else masteryRaw
    let sOk ← pyContains "scoreThreshold" mastery
    let mOk ← pyContains "minimumItems" mastery
    let itemsJ ← lesson.get "items" (.arr [])
    let items ← pyIter itemsJ
    let m8 ← itemMsgs (pyStr lid) items 0
    return ((grade, strand), variant,
      (if objectives.falsy then [pyStr lid ++ ": objectives must not be empty"] else []) ++
      (if !vOk then
        [pyStr lid ++ ": variant \x27" ++ pyStr variant ++ "\x27 is not one of " ++
          strListRepr (pySortedStr REQUIRED_VARIANTS)]
       else []) ++
      (if !dOk then
        [pyStr lid ++ ": difficulty \x27" ++ pyStr difficulty ++ "\x27 is not recognised"]
       else []) ++
      (if hints.falsy then [pyStr lid ++ ": must provide at least one lesson hint"] else []) ++
      (if scaffolds.falsy then [pyStr lid ++ ": must provide at least one lesson scaffold"] else []) ++
      (if !sOk then [pyStr lid ++ ": masteryRule missing scoreThreshold"] else []) ++
      (if !mOk then [pyStr lid ++ ": masteryRule missing minimumItems"] else []) ++
      m8)
  else
    .error .typeError

/-- One iteration of the per-lesson loop, threading the accumulator state
(group map, errors so far). -/
def processLesson (st : GroupMap × List String) (lesson : Json) :
    Except PyErr (GroupMap × List String) :=
  (lessonStep lesson).map (fun r => (addVariant st.1 r.1 r.2.1, st.2 ++ r.2.2))

/-- The whole per-lesson loop. -/
def foldLessons : List Json → GroupMap × List String → Except PyErr (GroupMap × List String)
  | [], st => .ok st
  | lesson :: rest, st => do
      let st2 ← processLesson st lesson
      foldLessons rest st2

/-- The cross-lesson coverage loop (src/scripts/validate_lessons.py:64-69),
over the groups in first-touch insertion order. -/
def coverageErrors : GroupMap → List String
  | [] => []
  | ((grade, strand), variants) :: rest =>
    (if !setEqStrSet variants REQUIRED_VARIANTS then
      [pyStr grade ++ "/" ++ pyStr strand ++ " missing lesson variants: " ++
        joinComma (pySortedStr (setDiffStr REQUIRED_VARIANTS variants))]
     else []) ++ coverageErrors rest

/-- `validate_lessons` (src/scripts/validate_lessons.py:27-71). -/
def validate_lessons (catalog : Json) : Except PyErr (List String) := do
  let lessonsJ ← catalog.get "lessons" (.arr [])
  let lessons ← pyIter lessonsJ
  let st ← foldLessons lessons ([], [])
  return st.2 ++ coverageErrors st.1

/-- The grade set comprehension of `main`
(src/scripts/validate_lessons.py:93): collects the distinct grades
(`dict.get` default `None`), raising `TypeError` on an unhashable grade. -/
def collectGrades : List Json → Except PyErr (List Json)
  | [] => .ok []
  | lesson :: rest => do
      let g ← lesson.get "grade" .null
      if g.hashable then do
        let gs ← collectGrades rest
        return (if gs.any (fun x => pyEq x g) then gs else g :: gs)
      else .error .typeError

/-- `main` after a successful load (src/scripts/validate_lessons.py:84-95):
returns the printed lines and the return value.  On an empty violation
list, `sorted` and `", ".join` both succeed exactly when every collected
grade is a string (`", ".join` raises `TypeError` on any non-string
element, and `sorted` can only raise earlier); in that case they produce
the distinct grades sorted and joined. -/
def mainRun (catalog : Json) : Except PyErr (List String × Nat) := do
  let errors ← validate_lessons catalog
  if errors.isEmpty then do
    let lessonsJ ← catalog.get "lessons" (.arr [])
    let lessons ← pyIter lessonsJ
    let grades ← collectGrades lessons
    if grades.all Json.isStr then do
      let n ← pyLen lessonsJ
      return (["Validated " ++ toString n ++ " lessons across grades: " ++
               joinComma (pySortedStr (grades.map Json.asStr))], 0)
    else
      .error .typeError
  else
    return ("Lesson validation failed:" :: errors.map (fun m => "  - " ++ m), 1)

/-- The process exit code for a successfully loaded catalog: `main`
returns 0 or 1, and an uncaught exception makes CPython exit with 1. -/
def mainExit (catalog : Json) : Nat :=
  match mainRun catalog with
  | .ok st => st.2
  | .error _ => 1

/-! Names for the violation messages of one lesson, phrased over the
record itself via `fieldD`; `lessonStep` produces exactly these strings. -/

/-- `str(lesson.get("id", "<missing>"))`. -/
def lidStr (lesson : Json) : String := pyStr (fieldD lesson "id" (.str "<missing>"))

/-- `lesson.get("masteryRule") or \x7b\x7d`. -/
def masteryOf (lesson : Json) : Json :=
  if (fieldD lesson "masteryRule" .null).falsy then Json.obj [] else fieldD lesson "masteryRule" .null

def msgObjectives (l : Json) : String := lidStr l ++ ": objectives must not be empty"

def msgVariant (l : Json) : String :=
  lidStr l ++ ": variant \x27" ++ pyStr (fieldD l "variant" .null) ++ "\x27 is not one of " ++
    strListRepr (pySortedStr REQUIRED_VARIANTS)

def msgDifficulty (l : Json) : String :=
  lidStr l ++ ": difficulty \x27" ++ pyStr (fieldD l "difficulty" .null) ++ "\x27 is not recognised"

def msgHints (l : Json) : String := lidStr l ++ ": must provide at least one lesson hint"

def msgScaffolds (l : Json) : String := lidStr l ++ ": must provide at least one lesson scaffold"

def msgScore (l : Json) : String := lidStr l ++ ": masteryRule missing scoreThreshold"

def msgMinItems (l : Json) : String := lidStr l ++ ": masteryRule missing minimumItems"

def msgItemHint (l : Json) (i : Nat) : String :=
  lidStr l ++ " item " ++ toString (i + 1) ++ ": must include at least one hint"

def msgItemScaffold (l : Json) (i : Nat) : String :=
  lidStr l ++ " item " ++ toString (i + 1) ++ ": must include at least one scaffold"

/-! Spec-side rendering of the coverage rule, written from the words of
the specification (section 4.2, rule 8): group lessons by (grade,
strandID); for each group collect the set of distinct variant values
seen; if that set is not exactly equal to the required set
\x7bpractice, challenge, remediation\x7d, report the group and the
missing variants (set difference REQUIRED minus seen, sorted).  It is
compared with the code-side `coverageErrors` in claim C1. -/

/-- Is the required variant `name` among the seen variant values? -/
def specSeen (seen : List Json) (name : String) : Bool :=
  seen.any (fun v => pyEq v (.str name))

/-- The seen set is exactly the required set: every required variant was
seen and nothing outside the required set was seen. -/
def specExactCoverage (seen : List Json) : Bool :=
  REQUIRED_VARIANTS.all (specSeen seen) &&
  seen.all (fun v => REQUIRED_VARIANTS.any (fun s => pyEq v (.str s)))

/-- The missing variants: required minus seen, sorted. -/
def specMissing (seen : List Json) : List String :=
  pySortedStr (REQUIRED_VARIANTS.filter (fun s => !specSeen seen s))

/-- The coverage violation the spec prescribes for one group, if any. -/
def specCoverage (grade strand : Json) (seen : List Json) : Option String :=
  if specExactCoverage seen then none
  else some (pyStr grade ++ "/" ++ pyStr strand ++ " missing lesson variants: " ++
    joinComma (specMissing seen))

/-! A well-formedness predicate on parsed documents under which
`validate_lessons` provably cannot raise (the amended form of claim C3):
the document is an object, its `lessons` entry (if present) is an array
of objects, and in each lesson the grouping and membership operands are
hashable, the `masteryRule` value is falsy or a container, and `items`
is an array of objects. -/

def Json.isObj : Json → Bool
  | .obj _ => true
  | _ => false

/-- Values a string can be tested for membership in without a
`TypeError`. -/
def canContain : Json → Bool
  | .obj _ => true
  | .arr _ => true
  | .str _ => true
  | _ => false

def wfLesson (lesson : Json) : Bool :=
  lesson.isObj &&
  (fieldD lesson "grade" (.str "<missing>")).hashable &&
  (fieldD lesson "strandID" (.str "<missing>")).hashable &&
  (fieldD lesson "variant" .null).hashable &&
  (fieldD lesson "difficulty" .null).hashable &&
  ((fieldD lesson "masteryRule" .null).falsy || canContain (fieldD lesson "masteryRule" .null)) &&
  (match fieldD lesson "items" (.arr []) with
   | .arr items => items.all Json.isObj
   | _ => false)

def wfCatalog (catalog : Json) : Bool :=
  catalog.isObj &&
  (match fieldD catalog "lessons" (.arr []) with
   | .arr lessons => lessons.all wfLesson
   | _ => false)

/-- The per-lesson messages of a lesson in isolation. -/
def lessonMsgs (lesson : Json) : Except PyErr (List String) :=
  (lessonStep lesson).map (fun r => r.2.2)

/-- The per-lesson messages of a sequence of lessons, concatenated in
document order. -/
def allLessonMsgs : List Json → Except PyErr (List String)
  | [] => .ok []
  | l :: rest => do
      let m ← lessonMsgs l
      let ms ← allLessonMsgs rest
      return m ++ ms

/-- The variant `v` is recorded in the group of `key`: the group map has
an entry whose key is `==`-equal to `key` and whose variant set has an
element `==`-equal to `v`. -/
def inGroups (g : GroupMap) (key : Json × Json) (v : Json) : Prop :=
  ∃ vs, lookupGroup g key = some vs ∧ vs.any (fun w => pyEq w v) = true

/-! Concrete catalogs used by the scenario claims. -/

/-- A fully populated lesson: objectives, hints, scaffolds, a complete
masteryRule and no items. -/
def sampleLesson (i g v : String) : Json := .obj [
  ("id", .str i), ("grade", .str g), ("strandID", .str "S1"),
  ("variant", .str v), ("difficulty", .str "secure"),
  ("objectives", .arr [.str "o"]), ("hints", .arr [.str "h"]),
  ("scaffolds", .arr [.str "s"]),
  ("masteryRule", .obj [("scoreThreshold", .num 80), ("minimumItems", .num 3)]),
  ("items", .arr [])]

/-- The catalog of the quiz scenario: one fully valid lesson except for
`variant: "quiz"`. -/
def c2Lesson : Json := sampleLesson "L1" "3" "quiz"

def c2Catalog : Json := .obj [("lessons", .arr [c2Lesson])]

def c2MsgVariant : String :=
  "L1: variant \x27quiz\x27 is not one of [\x27challenge\x27, \x27practice\x27, \x27remediation\x27]"

def c2MsgCoverage : String := "3/S1 missing lesson variants: challenge, practice, remediation"

def c2Errs : List String := [c2MsgVariant, c2MsgCoverage]

def c2Groups : GroupMap := [((.str "3", .str "S1"), [.str "quiz"])]

/-- Three fully valid lessons covering the three required variants of the
(grade "3", strand "S1") group. -/
def okLessons : List Json :=
  [sampleLesson "A" "3" "practice", sampleLesson "B" "3" "challenge",
   sampleLesson "C" "3" "remediation"]

/-- A fully valid catalog: one (grade "3", strand "S1") group covering
practice, challenge and remediation. -/
def okCatalog : Json := .obj [("lessons", .arr okLessons)]

/-- A fully populated lesson with no `grade` key. -/
def gradelessLesson (i v : String) : Json := .obj [
  ("id", .str i), ("strandID", .str "S1"),
  ("variant", .str v), ("difficulty", .str "secure"),
  ("objectives", .arr [.str "o"]), ("hints", .arr [.str "h"]),
  ("scaffolds", .arr [.str "s"]),
  ("masteryRule", .obj [("scoreThreshold", .num 80), ("minimumItems", .num 3)]),
  ("items", .arr [])]

/-- A catalog with zero violations whose lessons have no `grade` key: the
summary line of `main` then raises (`", ".join` meets `None`). -/
def noGradeCatalog : Json := .obj [("lessons", .arr
  [gradelessLesson "A" "practice", gradelessLesson "B" "challenge",
   gradelessLesson "C" "remediation"])]

/-- A fully populated lesson whose `grade` is the number 7. -/
def numGradeLesson (i v : String) : Json := .obj [
  ("id", .str i), ("grade", .num 7), ("strandID", .str "S1"),
  ("variant", .str v), ("difficulty", .str "secure"),
  ("objectives", .arr [.str "o"]), ("hints", .arr [.str "h"]),
  ("scaffolds", .arr [.str "s"]),
  ("masteryRule", .obj [("scoreThreshold", .num 80), ("minimumItems", .num 3)]),
  ("items", .arr [])]

/-- A catalog with zero violations whose grades are numbers: the summary
line of `main` then raises (`", ".join` rejects non-strings). -/
def numGradeCatalog : Json := .obj [("lessons", .arr
  [numGradeLesson "A" "practice", numGradeLesson "B" "challenge",
   numGradeLesson "C" "remediation"])]

/-- A lesson violating every per-lesson rule at once: empty objectives,
invalid variant and difficulty, missing hints, empty scaffolds, an empty
masteryRule, and one item with neither hints nor scaffolds. -/
def c5Lesson : Json := .obj [
  ("id", .str "L"), ("grade", .str "3"), ("strandID", .str "S1"),
  ("variant", .str "bad"), ("difficulty", .str "weird"),
  ("objectives", .arr []), ("scaffolds", .arr []),
  ("masteryRule", .obj []), ("items", .arr [.obj []])]

def c5Msgs : List String :=
  ["L: objectives must not be empty",
   "L: variant \x27bad\x27 is not one of [\x27challenge\x27, \x27practice\x27, \x27remediation\x27]",
   "L: difficulty \x27weird\x27 is not recognised",
   "L: must provide at least one lesson hint",
   "L: must provide at least one lesson scaffold",
   "L: masteryRule missing scoreThreshold",
   "L: masteryRule missing minimumItems",
   "L item 1: must include at least one hint",
   "L item 1: must include at least one scaffold"]

/-- Lessons forming two groups: ("3","S1") covers all three variants,
("4","S1") covers only practice. -/
def c1Lessons : List Json :=
  [sampleLesson "A" "3" "practice", sampleLesson "B" "3" "challenge",
   sampleLesson "C" "3" "remediation", sampleLesson "D" "4" "practice"]

/-- Two groups: ("3","S1") covers all three variants, ("4","S1") covers
only practice. -/
def c1Catalog : Json := .obj [("lessons", .arr c1Lessons)]

def c1Groups : GroupMap :=
  [((.str "3", .str "S1"), [.str "practice", .str "challenge", .str "remediation"]),
   ((.str "4", .str "S1"), [.str "practice"])]

def c1Errs : List String := ["4/S1 missing lesson variants: challenge, remediation"]

/-- Lessons of one (grade "3", strand "S1") group covering all three
required variants plus an invalid "quiz" variant. -/
def c10Lessons : List Json :=
  [sampleLesson "A" "3" "practice", sampleLesson "B" "3" "challenge",
   sampleLesson "C" "3" "remediation", sampleLesson "D" "3" "quiz"]

/-- One (grade "3", strand "S1") group covering all three required
variants plus an invalid "quiz" variant. -/
def c10Catalog : Json := .obj [("lessons", .arr c10Lessons)]

def c10MsgVariant : String :=
  "D: variant \x27quiz\x27 is not one of [\x27challenge\x27, \x27practice\x27, \x27remediation\x27]"

/-- The coverage violation of the quiz-polluted group: its list of missing
variants is empty, so the message ends with the bare separator. -/
def c10MsgCoverage : String := "3/S1 missing lesson variants: "

/-! ### Lemmas -/

@[simp] theorem okBind {α β : Type} (a : α) (f : α → Except PyErr β) :
    (Except.ok a >>= f) = f a := rfl

@[simp] theorem errBind {α β : Type} (e : PyErr) (f : α → Except PyErr β) :
    ((Except.error e : Except PyErr α) >>= f) = Except.error e := rfl

@[simp] theorem okMap {α β : Type} (a : α) (f : α → β) :
    (Except.ok a : Except PyErr α).map f = Except.ok (f a) := rfl

@[simp] theorem errMap {α β : Type} (e : PyErr) (f : α → β) :
    (Except.error e : Except PyErr α).map f = Except.error e := rfl

@[simp] theorem purePy {α : Type} (a : α) : (pure a : Except PyErr α) = Except.ok a := rfl

/-- `==` of the modelled Python is reflexive on hashable values. -/
theorem pyEq_refl (v : Json) (h : v.hashable = true) : pyEq v v = true := by
  cases v <;> simp_all [Json.hashable, pyEq]

/-- Tuple `==` is reflexive on tuples of hashable values. -/
theorem pairEq_refl (k : Json × Json) (h1 : k.1.hashable = true) (h2 : k.2.hashable = true) :
    pairEq k k = true := by
  simp [pairEq, pyEq_refl _ h1, pyEq_refl _ h2]

/-- Successful iteration implies a successful `len`. -/
theorem pyLen_ok_of_pyIter (j : Json) (ls : List Json) (h : pyIter j = .ok ls) :
    ∃ n, pyLen j = .ok n := by
  cases j <;> simp_all [pyIter, pyLen]

@[simp] theorem fieldD_obj (kvs : List (String × Json)) (k : String) (d : Json) :
    fieldD (.obj kvs) k d = (lookupKey k kvs).getD d := rfl

/-- The errors accumulated by the per-lesson loop are the incoming errors
followed by the concatenated per-lesson messages, independently of the
incoming group map. -/
theorem foldLessons_msgs :
    ∀ (ls : List Json) (g : GroupMap) (e : List String) (gs : GroupMap) (per : List String),
      foldLessons ls (g, e) = .ok (gs, per) →
      ∃ d, per = e ++ d ∧ allLessonMsgs ls = .ok d := by
  intro ls
  induction ls with
  | nil =>
    intro g e gs per h
    simp [foldLessons] at h
    exact ⟨[], by simp [h.2], by simp [allLessonMsgs]⟩
  | cons l rest ih =>
    intro g e gs per h
    cases hs : lessonStep l with
    | error pe => simp [foldLessons, processLesson, hs] at h
    | ok r =>
      obtain ⟨k, v, m⟩ := r
      simp only [foldLessons, processLesson, hs, okMap, okBind] at h
      obtain ⟨d, hd, hall⟩ := ih _ _ _ _ h
      refine ⟨m ++ d, by simp [hd], ?_⟩
      simp [allLessonMsgs, lessonMsgs, hs, hall]

/-- The code-side coverage loop computes exactly the spec-side coverage
violations, group by group. -/
theorem coverageErrors_eq_spec (gs : GroupMap) :
    coverageErrors gs = gs.flatMap (fun g => (specCoverage g.1.1 g.1.2 g.2).toList) := by
  induction gs with
  | nil => rfl
  | cons g rest ih =>
    obtain ⟨⟨grade, strand⟩, vs⟩ := g
    by_cases h : specExactCoverage vs = true
    · have h2 : setEqStrSet vs REQUIRED_VARIANTS = true := h
      simp [coverageErrors, specCoverage, h, h2, ih]
    · have h2 : setEqStrSet vs REQUIRED_VARIANTS = false := by
        cases h3 : specExactCoverage vs
        · exact h3
        · exact absurd h3 h
      simp only [coverageErrors, specCoverage, h, if_false, ih, List.flatMap_cons]
      simp [h2, setDiffStr, specMissing, specSeen]

/-! ### Claim theorems -/

/-- C2 counterexample: on a catalog with a single otherwise fully valid
lesson whose variant is "quiz", the validator produces two violations,
not exactly one: the per-lesson variant violation and the coverage
violation of the lesson's (grade, strand) group. -/
theorem quiz_scenario_not_single_violation :
    validate_lessons c2Catalog = .ok c2Errs ∧ c2Errs.length = 2 := ⟨rfl, rfl⟩

/-- C2 (amended): on that catalog the validator produces exactly two
violations; the first mentions "quiz" and the allowed set, the second is
the coverage violation of the ("3", "S1") group; the process exits with
code 1. -/
theorem quiz_scenario_two_violations :
    validate_lessons c2Catalog = .ok [c2MsgVariant, c2MsgCoverage] ∧
    substrCheck "quiz" c2MsgVariant = true ∧
    substrCheck (strListRepr (pySortedStr REQUIRED_VARIANTS)) c2MsgVariant = true ∧
    mainExit c2Catalog = 1 :=
  ⟨rfl, by decide, by decide, rfl⟩

/-- C3 counterexample: `validate_lessons` raises on the parsed document
`[]` (a successful JSON parse that is not a dict): `.get` on a list
raises `AttributeError`. -/
theorem validate_raises_on_list_document :
    validate_lessons (.arr []) = .error .attributeError := rfl

/-- C7: validation is deterministic and stateless: two runs on the same
unmodified document yield identical violation lists, identical printed
output and identical exit codes. -/
theorem validation_deterministic (c1 c2 : Json) (h : c1 = c2) :
    validate_lessons c1 = validate_lessons c2 ∧ mainRun c1 = mainRun c2 ∧
    mainExit c1 = mainExit c2 := by
  subst h; exact ⟨rfl, rfl, rfl⟩

/-- Witness for C7 at a concrete catalog. -/
theorem validation_deterministic_witness :
    validate_lessons c2Catalog = validate_lessons c2Catalog ∧
    mainRun c2Catalog = mainRun c2Catalog ∧ mainExit c2Catalog = mainExit c2Catalog :=
  validation_deterministic c2Catalog c2Catalog rfl

/-- C9: a parsed catalog object without a `lessons` key, or with an empty
`lessons` array, yields zero violations; the process prints the empty
summary and exits with code 0. -/
theorem absent_or_empty_lessons_validates (kvs : List (String × Json))
    (h : lookupKey "lessons" kvs = none ∨ lookupKey "lessons" kvs = some (.arr [])) :
    validate_lessons (.obj kvs) = .ok [] ∧
    mainRun (.obj kvs) = .ok (["Validated 0 lessons across grades: "], 0) ∧
    mainExit (.obj kvs) = 0 := by
  have hget : Json.get (.obj kvs) "lessons" (.arr []) = .ok (.arr []) := by
    rcases h with h | h <;> simp [Json.get, h]
  have hval : validate_lessons (.obj kvs) = .ok [] := by
    simp [validate_lessons, hget, pyIter, foldLessons, coverageErrors]
  have hrun : mainRun (.obj kvs) = .ok (["Validated 0 lessons across grades: "], 0) := by
    simp [mainRun, hval, hget, pyIter, collectGrades, pyLen, pySortedStr, joinComma]
    decide
  exact ⟨hval, hrun, by simp [mainExit, hrun]⟩

/-- Witness for C9 at the empty object catalog. -/
theorem absent_or_empty_lessons_witness :
    validate_lessons (.obj []) = .ok [] ∧
    mainRun (.obj []) = .ok (["Validated 0 lessons across grades: "], 0) ∧
    mainExit (.obj []) = 0 :=
  absent_or_empty_lessons_validates [] (Or.inl rfl)

/-- C4 counterexample: a successfully loaded catalog whose violation list
is empty but whose lessons have no `grade` key makes the summary line of
`main` raise, so the process exits with code 1 although the violation
list is empty. -/
theorem empty_violations_exit_one :
    validate_lessons noGradeCatalog = .ok [] ∧
    mainRun noGradeCatalog = .error .typeError ∧
    mainExit noGradeCatalog = 1 := ⟨rfl, rfl, rfl⟩

/-- C4 (amended): when the catalog loads, validation completes without
raising, and every collected grade is a string, the exit code is 0 iff
the violation list is empty and 1 iff it is non-empty. -/
theorem exit_code_iff_violations_of_string_grades
    (catalog lessonsJ : Json) (errs : List String) (ls gs : List Json)
    (hv : validate_lessons catalog = .ok errs)
    (hl : catalog.get "lessons" (.arr []) = .ok lessonsJ)
    (hi : pyIter lessonsJ = .ok ls)
    (hg : collectGrades ls = .ok gs)
    (hs : gs.all Json.isStr = true) :
    (mainExit catalog = 0 ↔ errs = []) ∧ (mainExit catalog = 1 ↔ errs ≠ []) := by
  by_cases he : errs = []
  · subst he
    obtain ⟨n, hn⟩ := pyLen_ok_of_pyIter lessonsJ ls hi
    have hs2 : ∀ x ∈ gs, x.isStr = true := by simpa using hs
    have h0 : mainExit catalog = 0 := by
      simp [mainExit, mainRun, hv, hl, hi, hg, hn]
      rw [if_pos hs2]
    simp [h0]
  · have hne : errs.isEmpty = false := by
      cases errs
      · exact absurd rfl he
      · rfl
    have h1 : mainExit catalog = 1 := by
      simp [mainExit, mainRun, hv, hne, he]
    simp [h1, he]

/-- Witness for C4 (amended) at a fully valid catalog. -/
theorem exit_code_iff_violations_witness :
    (mainExit okCatalog = 0 ↔ ([] : List String) = []) ∧
    (mainExit okCatalog = 1 ↔ ([] : List String) ≠ []) :=
  exit_code_iff_violations_of_string_grades okCatalog (.arr okLessons) [] okLessons
    [.str "3"] rfl rfl rfl rfl rfl

/-- C8 counterexample: a successfully loaded catalog with an empty
violation list whose grades are numbers: `main` raises instead of
printing the summary line, and the process exits with code 1, not the
success status. -/
theorem summary_crash_on_nonstring_grade :
    validate_lessons numGradeCatalog = .ok [] ∧
    mainRun numGradeCatalog = .error .typeError ∧
    mainExit numGradeCatalog = 1 := ⟨rfl, rfl, rfl⟩

/-- C8 (amended): when the catalog loads, the violation list is empty and
every collected grade is a string, `main` prints exactly one summary line
holding the lesson count and the distinct grades sorted and joined by
", ", and the process exits with the success code 0. -/
theorem summary_line_of_string_grades
    (catalog lessonsJ : Json) (ls gs : List Json) (n : Nat)
    (hv : validate_lessons catalog = .ok [])
    (hl : catalog.get "lessons" (.arr []) = .ok lessonsJ)
    (hi : pyIter lessonsJ = .ok ls)
    (hg : collectGrades ls = .ok gs)
    (hs : gs.all Json.isStr = true)
    (hn : pyLen lessonsJ = .ok n) :
    mainRun catalog = .ok (["Validated " ++ toString n ++ " lessons across grades: " ++
      joinComma (pySortedStr (gs.map Json.asStr))], 0) ∧
    mainExit catalog = 0 := by
  have hrun : mainRun catalog = .ok (["Validated " ++ toString n ++
      " lessons across grades: " ++ joinComma (pySortedStr (gs.map Json.asStr))], 0) := by
    have hs2 : ∀ x ∈ gs, x.isStr = true := by simpa using hs
    simp [mainRun, hv, hl, hi, hg, hn]
    exact hs2
  exact ⟨hrun, by simp [mainExit, hrun]⟩

/-- Witness for C8 (amended) at a fully valid catalog. -/
theorem summary_line_witness :
    mainRun okCatalog = .ok (["Validated " ++ toString 3 ++ " lessons across grades: " ++
      joinComma (pySortedStr ([Json.str "3"].map Json.asStr))], 0) ∧
    mainExit okCatalog = 0 :=
  summary_line_of_string_grades okCatalog (.arr okLessons) okLessons [.str "3"] 3
    rfl rfl rfl rfl rfl rfl

/-- A successful `pyContains` returns the total membership test. -/
theorem pyContains_ok (needle : String) (j : Json) (b : Bool)
    (h : pyContains needle j = .ok b) : b = containsB needle j := by
  cases j <;> simp_all [pyContains]

/-- Shape of a successful per-lesson step: the group key is the
(grade, strandID) pair, the recorded variant is the lesson variant, all
three are hashable, and the messages are the eight per-rule segments in
source order, each present exactly when its rule fails. -/
theorem lessonStep_shape (lesson : Json) (key : Json × Json) (v : Json) (msgs : List String)
    (hstep : lessonStep lesson = .ok (key, v, msgs)) :
    key = (fieldD lesson "grade" (.str "<missing>"), fieldD lesson "strandID" (.str "<missing>")) ∧
    v = fieldD lesson "variant" .null ∧
    key.1.hashable = true ∧ key.2.hashable = true ∧ v.hashable = true ∧
    ∃ items m8,
      pyIter (fieldD lesson "items" (.arr [])) = .ok items ∧
      itemMsgs (lidStr lesson) items 0 = .ok m8 ∧
      msgs =
        (if (fieldD lesson "objectives" .null).falsy then [msgObjectives lesson] else []) ++
        (if !strSetMem (fieldD lesson "variant" .null) REQUIRED_VARIANTS then [msgVariant lesson] else []) ++
        (if !strSetMem (fieldD lesson "difficulty" .null) REQUIRED_DIFFICULTIES then [msgDifficulty lesson] else []) ++
        (if (fieldD lesson "hints" .null).falsy then [msgHints lesson] else []) ++
        (if (fieldD lesson "scaffolds" .null).falsy then [msgScaffolds lesson] else []) ++
        (if !containsB "scoreThreshold" (masteryOf lesson) then [msgScore lesson] else []) ++
        (if !containsB "minimumItems" (masteryOf lesson) then [msgMinItems lesson] else []) ++
        m8 := by
  cases lesson with
  | obj kvs => ?_
  | null => simp [lessonStep, Json.get] at hstep
  | bool b => simp [lessonStep, Json.get] at hstep
  | num n => simp [lessonStep, Json.get] at hstep
  | str s => simp [lessonStep, Json.get] at hstep
  | arr xs => simp [lessonStep, Json.get] at hstep
  case obj =>
  simp only [lessonStep, Json.get, okBind] at hstep
  split at hstep
  case isFalse => simp at hstep
  case isTrue hh =>
  simp only [Bool.and_eq_true] at hh
  obtain ⟨⟨hg, hsd⟩, hv2⟩ := hh
  simp only [pyInStrSet, hv2, if_true, okBind] at hstep
  cases hd : ((lookupKey "difficulty" kvs).getD Json.null).hashable with
  | false => simp [pyInStrSet, hd] at hstep
  | true =>
  simp only [pyInStrSet, hd, if_true, okBind] at hstep
  cases hSok : pyContains "scoreThreshold"
      (if ((lookupKey "masteryRule" kvs).getD Json.null).falsy = true then Json.obj []
       else (lookupKey "masteryRule" kvs).getD Json.null) with
  | error e => rw [hSok] at hstep; simp at hstep
  | ok sOk =>
  rw [hSok] at hstep
  simp only [okBind] at hstep
  cases hMok : pyContains "minimumItems"
      (if ((lookupKey "masteryRule" kvs).getD Json.null).falsy = true then Json.obj []
       else (lookupKey "masteryRule" kvs).getD Json.null) with
  | error e => rw [hMok] at hstep; simp at hstep
  | ok mOk =>
  rw [hMok] at hstep
  simp only [okBind] at hstep
  cases hit : pyIter ((lookupKey "items" kvs).getD (Json.arr [])) with
  | error e => rw [hit] at hstep; simp at hstep
  | ok items =>
  rw [hit] at hstep
  simp only [okBind] at hstep
  cases him : itemMsgs (pyStr ((lookupKey "id" kvs).getD (Json.str "<missing>"))) items 0 with
  | error e => rw [him] at hstep; simp at hstep
  | ok m8 =>
  rw [him] at hstep
  simp only [okBind, purePy, Except.ok.injEq, Prod.mk.injEq] at hstep
  obtain ⟨hkey, hv3, hmsgs⟩ := hstep
  have hsok := pyContains_ok _ _ _ hSok
  have hmok := pyContains_ok _ _ _ hMok
  subst hkey hv3 hmsgs hsok hmok
  refine ⟨by simp [fieldD_obj], by simp [fieldD_obj], hg, hsd, hv2, items, m8,
    by simpa [fieldD_obj] using hit, by simpa [lidStr, fieldD_obj] using him, ?_⟩
  simp [msgObjectives, msgVariant, msgDifficulty, msgHints, msgScaffolds, msgScore,
    msgMinItems, lidStr, masteryOf, fieldD_obj]

/-- C6: in the returned violation list, the per-lesson violations come
first, concatenated in lesson iteration order (document order), and the
cross-lesson coverage violations follow them, in the group map's
first-touch insertion order of the (grade, strandID) keys. -/
theorem violation_order (catalog lessonsJ : Json) (errs per : List String)
    (ls : List Json) (gs : GroupMap)
    (hv : validate_lessons catalog = .ok errs)
    (hl : catalog.get "lessons" (.arr []) = .ok lessonsJ)
    (hi : pyIter lessonsJ = .ok ls)
    (hf : foldLessons ls ([], []) = .ok (gs, per)) :
    allLessonMsgs ls = .ok per ∧ errs = per ++ coverageErrors gs := by
  obtain ⟨d, hd, hall⟩ := foldLessons_msgs ls [] [] gs per hf
  simp at hd
  subst hd
  refine ⟨hall, ?_⟩
  simp [validate_lessons, hl, hi, hf] at hv
  exact hv.symm

/-- Witness for C6 at the quiz catalog: its single per-lesson violation
precedes its single coverage violation. -/
theorem violation_order_witness :
    allLessonMsgs [c2Lesson] = .ok [c2MsgVariant] ∧
    c2Errs = [c2MsgVariant] ++ coverageErrors c2Groups :=
  violation_order c2Catalog (.arr [c2Lesson]) c2Errs [c2MsgVariant] [c2Lesson] c2Groups
    rfl rfl rfl rfl

/-- C1: the validator's violation list is the per-lesson violations
followed by exactly the coverage violations the spec prescribes: one per
(grade, strandID) group whose seen variant set is not exactly
\x7bpractice, challenge, remediation\x7d, naming the group and listing the
missing variants (REQUIRED minus seen) in sorted order. -/
theorem coverage_matches_spec (catalog lessonsJ : Json) (errs per : List String)
    (ls : List Json) (gs : GroupMap)
    (hv : validate_lessons catalog = .ok errs)
    (hl : catalog.get "lessons" (.arr []) = .ok lessonsJ)
    (hi : pyIter lessonsJ = .ok ls)
    (hf : foldLessons ls ([], []) = .ok (gs, per)) :
    errs = per ++ gs.flatMap (fun g => (specCoverage g.1.1 g.1.2 g.2).toList) := by
  simp [validate_lessons, hl, hi, hf] at hv
  rw [← coverageErrors_eq_spec]
  exact hv.symm

/-- Witness for C1 at a catalog with one complete and one incomplete
group. -/
theorem coverage_matches_spec_witness :
    c1Errs = [] ++ c1Groups.flatMap (fun g => (specCoverage g.1.1 g.1.2 g.2).toList) :=
  coverage_matches_spec c1Catalog (.arr c1Lessons) c1Errs [] c1Lessons c1Groups
    rfl rfl rfl rfl

/-- Every item whose hints or scaffolds are falsy contributes its
1-indexed message to the item-loop messages. -/
theorem itemMsgs_mem (label : String) :
    ∀ (items : List Json) (s : Nat) (m8 : List String),
      itemMsgs label items s = .ok m8 →
      ∀ (i : Nat) (hlt : i < items.length),
        ((fieldD (items.get ⟨i, hlt⟩) "hints" .null).falsy = true →
          (label ++ " item " ++ toString (s + i + 1) ++ ": must include at least one hint") ∈ m8) ∧
        ((fieldD (items.get ⟨i, hlt⟩) "scaffolds" .null).falsy = true →
          (label ++ " item " ++ toString (s + i + 1) ++ ": must include at least one scaffold") ∈ m8) := by
  intro items
  induction items with
  | nil =>
    intro s m8 h i hlt
    exact absurd hlt (by simp)
  | cons item rest ih =>
    intro s m8 h i hlt
    cases hstep : itemStep label s item with
    | error e => simp [itemMsgs, hstep] at h
    | ok m0 =>
    cases hrest : itemMsgs label rest (s + 1) with
    | error e => simp [itemMsgs, hstep, hrest] at h
    | ok mrest =>
    have hm8 : m8 = m0 ++ mrest := by
      simp [itemMsgs, hstep, hrest] at h
      exact h.symm
    subst hm8
    cases i with
    | zero =>
      cases item with
      | obj kv => ?_
      | null => simp [itemStep, Json.get] at hstep
      | bool b => simp [itemStep, Json.get] at hstep
      | num n => simp [itemStep, Json.get] at hstep
      | str t => simp [itemStep, Json.get] at hstep
      | arr xs => simp [itemStep, Json.get] at hstep
      case obj =>
      simp only [itemStep, Json.get, okBind, purePy, Except.ok.injEq] at hstep
      subst hstep
      constructor
      · intro hf
        simp only [List.get] at hf ⊢
        simp [fieldD_obj] at hf
        simp [hf, Nat.add_zero]
      · intro hf
        simp only [List.get] at hf ⊢
        simp [fieldD_obj] at hf
        simp [hf, Nat.add_zero]
    | succ j =>
      have hlt2 : j < rest.length := by simpa using hlt
      have hrec := ih (s + 1) mrest hrest j hlt2
      have harith : s + 1 + j + 1 = s + (j + 1) + 1 := by omega
      constructor
      · intro hf
        have := (hrec).1 (by simpa using hf)
        rw [harith] at this
        exact List.mem_append_right _ this
      · intro hf
        have := (hrec).2 (by simpa using hf)
        rw [harith] at this
        exact List.mem_append_right _ this

/-- C5: per-lesson checks are evaluated independently, with no
short-circuiting: whenever a lesson is processed successfully, every
violated per-lesson rule contributes its own message to the lesson's
violation messages — objectives, variant membership, difficulty
membership, hints, scaffolds, both masteryRule keys, and the per-item
hints and scaffolds of every item. -/
theorem per_lesson_checks_independent (lesson : Json) (key : Json × Json) (v : Json)
    (msgs : List String) (h : lessonStep lesson = .ok (key, v, msgs)) :
    ((fieldD lesson "objectives" .null).falsy = true → msgObjectives lesson ∈ msgs) ∧
    (strSetMem (fieldD lesson "variant" .null) REQUIRED_VARIANTS = false → msgVariant lesson ∈ msgs) ∧
    (strSetMem (fieldD lesson "difficulty" .null) REQUIRED_DIFFICULTIES = false → msgDifficulty lesson ∈ msgs) ∧
    ((fieldD lesson "hints" .null).falsy = true → msgHints lesson ∈ msgs) ∧
    ((fieldD lesson "scaffolds" .null).falsy = true → msgScaffolds lesson ∈ msgs) ∧
    (containsB "scoreThreshold" (masteryOf lesson) = false → msgScore lesson ∈ msgs) ∧
    (containsB "minimumItems" (masteryOf lesson) = false → msgMinItems lesson ∈ msgs) ∧
    (∀ items, pyIter (fieldD lesson "items" (.arr [])) = .ok items →
      ∀ (i : Nat) (hlt : i < items.length),
        ((fieldD (items.get ⟨i, hlt⟩) "hints" .null).falsy = true → msgItemHint lesson i ∈ msgs) ∧
        ((fieldD (items.get ⟨i, hlt⟩) "scaffolds" .null).falsy = true → msgItemScaffold lesson i ∈ msgs)) := by
  obtain ⟨hk, hv2, h1, h2, h3, items, m8, hit, him, hmsgs⟩ := lessonStep_shape lesson key v msgs h
  subst hmsgs
  refine ⟨?_, ?_, ?_, ?_, ?_, ?_, ?_, ?_⟩
  · intro hc; simp [hc, List.mem_append]
  · intro hc; simp [hc, List.mem_append]
  · intro hc; simp [hc, List.mem_append]
  · intro hc; simp [hc, List.mem_append]
  · intro hc; simp [hc, List.mem_append]
  · intro hc; simp [hc, List.mem_append]
  · intro hc; simp [hc, List.mem_append]
  · intro its hits i hlt
    have hits2 : its = items := by
      rw [hit] at hits
      simpa using hits.symm
    subst hits2
    have hrec := itemMsgs_mem (lidStr lesson) its 0 m8 him i hlt
    constructor
    · intro hf
      have hm : msgItemHint lesson i ∈ m8 := by
        simpa [msgItemHint, Nat.zero_add] using hrec.1 hf
      simp [List.mem_append, hm]
    · intro hf
      have hm : msgItemScaffold lesson i ∈ m8 := by
        simpa [msgItemScaffold, Nat.zero_add] using hrec.2 hf
      simp [List.mem_append, hm]

/-- Witness for C5 at a lesson violating every rule at once: all nine
messages appear. -/
theorem per_lesson_checks_independent_witness :
    msgObjectives c5Lesson ∈ c5Msgs ∧ msgVariant c5Lesson ∈ c5Msgs ∧
    msgDifficulty c5Lesson ∈ c5Msgs ∧ msgHints c5Lesson ∈ c5Msgs ∧
    msgScaffolds c5Lesson ∈ c5Msgs ∧ msgScore c5Lesson ∈ c5Msgs ∧
    msgMinItems c5Lesson ∈ c5Msgs ∧ msgItemHint c5Lesson 0 ∈ c5Msgs ∧
    msgItemScaffold c5Lesson 0 ∈ c5Msgs := by
  obtain ⟨a1, a2, a3, a4, a5, a6, a7, a8⟩ :=
    per_lesson_checks_independent c5Lesson (.str "3", .str "S1") (.str "bad") c5Msgs rfl
  have hi := a8 [.obj []] rfl 0 (by decide)
  exact ⟨a1 (by decide), a2 (by decide), a3 (by decide), a4 (by decide), a5 (by decide),
    a6 (by decide), a7 (by decide), hi.1 (by decide), hi.2 (by decide)⟩

/-- The item loop cannot raise when every item is an object. -/
theorem itemMsgs_ok_of_objs (label : String) :
    ∀ (items : List Json), items.all Json.isObj = true →
      ∀ s, ∃ m, itemMsgs label items s = .ok m := by
  intro items
  induction items with
  | nil => intro _ s; exact ⟨[], rfl⟩
  | cons item rest ih =>
    intro hall s
    simp only [List.all_cons, Bool.and_eq_true] at hall
    obtain ⟨m2, hm2⟩ := ih hall.2 (s + 1)
    cases item with
    | obj kv =>
      cases hres : itemMsgs label (Json.obj kv :: rest) s with
      | ok m => exact ⟨m, rfl⟩
      | error e => simp [itemMsgs, itemStep, Json.get, hm2] at hres
    | null => simp [Json.isObj] at hall
    | bool b => simp [Json.isObj] at hall
    | num n => simp [Json.isObj] at hall
    | str t => simp [Json.isObj] at hall
    | arr xs => simp [Json.isObj] at hall

/-- A well-formed lesson is processed without raising. -/
theorem lessonStep_ok_of_wf (lesson : Json) (h : wfLesson lesson = true) :
    ∃ r, lessonStep lesson = .ok r := by
  cases lesson with
  | obj kvs => ?_
  | null => simp [wfLesson, Json.isObj] at h
  | bool b => simp [wfLesson, Json.isObj] at h
  | num n => simp [wfLesson, Json.isObj] at h
  | str s => simp [wfLesson, Json.isObj] at h
  | arr xs => simp [wfLesson, Json.isObj] at h
  case obj =>
  simp only [wfLesson, Json.isObj, fieldD_obj, Bool.and_eq_true] at h
  obtain ⟨⟨⟨⟨⟨⟨_, hg⟩, hsd⟩, hv2⟩, hd⟩, hm⟩, hi⟩ := h
  cases hitv : (lookupKey "items" kvs).getD (Json.arr []) with
  | arr items => ?_
  | null => rw [hitv] at hi; simp at hi
  | bool b => rw [hitv] at hi; simp at hi
  | num n => rw [hitv] at hi; simp at hi
  | str t => rw [hitv] at hi; simp at hi
  | obj okv => rw [hitv] at hi; simp at hi
  case arr =>
  rw [hitv] at hi
  simp only at hi
  obtain ⟨m8, hm8⟩ := itemMsgs_ok_of_objs
    (pyStr ((lookupKey "id" kvs).getD (Json.str "<missing>"))) items hi 0
  have hcont : ∀ needle : String, ∃ b, pyContains needle
      (if ((lookupKey "masteryRule" kvs).getD Json.null).falsy = true then Json.obj []
       else (lookupKey "masteryRule" kvs).getD Json.null) = .ok b := by
    intro needle
    cases hres : pyContains needle
        (if ((lookupKey "masteryRule" kvs).getD Json.null).falsy = true then Json.obj []
         else (lookupKey "masteryRule" kvs).getD Json.null) with
    | ok b => exact ⟨b, rfl⟩
    | error e =>
      cases hfal : ((lookupKey "masteryRule" kvs).getD Json.null).falsy with
      | true => simp [hfal, pyContains] at hres
      | false =>
        rw [hfal] at hm
        simp only [Bool.false_or] at hm
        cases hmc : (lookupKey "masteryRule" kvs).getD Json.null with
        | obj mkv => rw [hmc] at hfal hres; simp [hfal, pyContains] at hres
        | arr mxs => rw [hmc] at hfal hres; simp [hfal, pyContains] at hres
        | str ms => rw [hmc] at hfal hres; simp [hfal, pyContains] at hres
        | null => rw [hmc] at hm; simp [canContain] at hm
        | bool b => rw [hmc] at hm; simp [canContain] at hm
        | num n => rw [hmc] at hm; simp [canContain] at hm
  obtain ⟨sOk, hSok⟩ := hcont "scoreThreshold"
  obtain ⟨mOk, hMok⟩ := hcont "minimumItems"
  cases hstep : lessonStep (.obj kvs) with
  | ok r => exact ⟨r, rfl⟩
  | error e =>
    simp only [lessonStep, Json.get, okBind, hg, hsd, hv2, Bool.and_self, if_true,
      pyInStrSet, hd, hSok, hMok, hitv, pyIter, hm8] at hstep
    simp at hstep

/-- The per-lesson loop cannot raise over well-formed lessons. -/
theorem foldLessons_ok_of_wf :
    ∀ (ls : List Json), ls.all wfLesson = true →
      ∀ st, ∃ st2, foldLessons ls st = .ok st2 := by
  intro ls
  induction ls with
  | nil => intro _ st; exact ⟨st, rfl⟩
  | cons l rest ih =>
    intro hall st
    simp only [List.all_cons, Bool.and_eq_true] at hall
    obtain ⟨r, hr⟩ := lessonStep_ok_of_wf l hall.1
    obtain ⟨st2, hst2⟩ := ih hall.2 (addVariant st.1 r.1 r.2.1, st.2 ++ r.2.2)
    cases hres : foldLessons (l :: rest) st with
    | ok st3 => exact ⟨st3, rfl⟩
    | error e => simp [foldLessons, processLesson, hr, hst2] at hres

/-- C3 (amended): on a well-formed parsed document — an object whose
`lessons` entry, if present, is an array of objects with hashable grade,
strandID, variant and difficulty values, a falsy-or-container
masteryRule, and an `items` array of objects — `validate_lessons` never
raises: it returns a (possibly empty) list of strings. -/
theorem validate_ok_of_wf (catalog : Json) (h : wfCatalog catalog = true) :
    ∃ errs, validate_lessons catalog = .ok errs := by
  cases catalog with
  | obj kvs => ?_
  | null => simp [wfCatalog, Json.isObj] at h
  | bool b => simp [wfCatalog, Json.isObj] at h
  | num n => simp [wfCatalog, Json.isObj] at h
  | str s => simp [wfCatalog, Json.isObj] at h
  | arr xs => simp [wfCatalog, Json.isObj] at h
  case obj =>
  simp only [wfCatalog, Json.isObj, fieldD_obj, Bool.and_eq_true] at h
  obtain ⟨-, h2⟩ := h
  cases hles : (lookupKey "lessons" kvs).getD (Json.arr []) with
  | arr lessons => ?_
  | null => rw [hles] at h2; simp at h2
  | bool b => rw [hles] at h2; simp at h2
  | num n => rw [hles] at h2; simp at h2
  | str t => rw [hles] at h2; simp at h2
  | obj okv => rw [hles] at h2; simp at h2
  case arr =>
  rw [hles] at h2
  simp only at h2
  obtain ⟨st2, hst2⟩ := foldLessons_ok_of_wf lessons h2 ([], [])
  exact ⟨st2.2 ++ coverageErrors st2.1,
    by simp [validate_lessons, Json.get, hles, pyIter, hst2]⟩

/-- Witness for C3 (amended) at the quiz catalog. -/
theorem validate_ok_of_wf_witness :
    wfCatalog c2Catalog = true ∧ ∃ errs, validate_lessons c2Catalog = .ok errs :=
  ⟨by decide, validate_ok_of_wf c2Catalog (by decide)⟩

/-- After adding a variant to its group, the variant is recorded there
(for hashable keys and variants, as guaranteed by a successful lesson
step). -/
theorem addVariant_self (g : GroupMap) (key : Json × Json) (v : Json)
    (hk1 : key.1.hashable = true) (hk2 : key.2.hashable = true) (hv : v.hashable = true) :
    inGroups (addVariant g key v) key v := by
  induction g with
  | nil =>
    refine ⟨[v], ?_, ?_⟩
    · simp [addVariant, lookupGroup, pairEq_refl key hk1 hk2]
    · simp [pyEq_refl v hv]
  | cons entry rest ih =>
    obtain ⟨k0, vs0⟩ := entry
    by_cases hpk : pairEq k0 key = true
    · by_cases hmem : vs0.any (fun w => pyEq w v) = true
      · exact ⟨vs0, by simp [addVariant, lookupGroup, hpk, hmem], hmem⟩
      · refine ⟨vs0 ++ [v], by simp [addVariant, lookupGroup, hpk, hmem], ?_⟩
        simp [List.any_append, pyEq_refl v hv]
    · obtain ⟨vs, hl, ha⟩ := ih
      exact ⟨vs, by simp [addVariant, lookupGroup, hpk, hl], ha⟩

/-- Recorded variants persist across later additions: `addVariant` only
ever extends groups. -/
theorem addVariant_mono (g : GroupMap) (key key2 : Json × Json) (v v2 : Json)
    (h : inGroups g key v) : inGroups (addVariant g key2 v2) key v := by
  induction g with
  | nil =>
    obtain ⟨vs, hl, _⟩ := h
    simp [lookupGroup] at hl
  | cons entry rest ih =>
    obtain ⟨k0, vs0⟩ := entry
    obtain ⟨vs, hl, ha⟩ := h
    by_cases hpk2 : pairEq k0 key2 = true
    · by_cases hpk : pairEq k0 key = true
      · have hvs : vs0 = vs := by simpa [lookupGroup, hpk] using hl
        subst hvs
        by_cases hmem : vs0.any (fun w => pyEq w v2) = true
        · exact ⟨vs0, by simp [addVariant, lookupGroup, hpk2, hpk, hmem], ha⟩
        · refine ⟨vs0 ++ [v2], by simp [addVariant, lookupGroup, hpk2, hpk, hmem], ?_⟩
          simp [List.any_append, ha]
      · have hl2 : lookupGroup rest key = some vs := by simpa [lookupGroup, hpk] using hl
        exact ⟨vs, by simp [addVariant, lookupGroup, hpk2, hpk, hl2], ha⟩
    · by_cases hpk : pairEq k0 key = true
      · have hvs : vs0 = vs := by simpa [lookupGroup, hpk] using hl
        subst hvs
        exact ⟨vs0, by simp [addVariant, lookupGroup, hpk2, hpk], ha⟩
      · have hl2 : lookupGroup rest key = some vs := by simpa [lookupGroup, hpk] using hl
        obtain ⟨vs3, hl3, ha3⟩ := ih ⟨vs, hl2, ha⟩
        exact ⟨vs3, by simp [addVariant, lookupGroup, hpk2, hpk, hl3], ha3⟩

/-- Recorded variants persist across the rest of the per-lesson loop. -/
theorem foldLessons_mono :
    ∀ (ls : List Json) (g : GroupMap) (e : List String) (gs : GroupMap) (per : List String)
      (key : Json × Json) (v : Json),
      inGroups g key v → foldLessons ls (g, e) = .ok (gs, per) → inGroups gs key v := by
  intro ls
  induction ls with
  | nil =>
    intro g e gs per key v hin h
    simp [foldLessons] at h
    rw [← h.1]
    exact hin
  | cons l rest ih =>
    intro g e gs per key v hin h
    cases hs : lessonStep l with
    | error e2 => simp [foldLessons, processLesson, hs] at h
    | ok r =>
      simp only [foldLessons, processLesson, hs, okMap, okBind] at h
      exact ih _ _ _ _ _ _ (addVariant_mono g key r.1 v r.2.1 hin) h

/-- C10: every successfully processed lesson's variant — defaulted to the
`None` sentinel when absent, and whether or not it is an allowed value —
ends up recorded in its (grade, strandID) group's variant set when the
loop finishes; consequently a group covering all of practice, challenge
and remediation plus a lesson with variant "quiz" still receives a
coverage violation, and that violation's list of missing variants is
empty (the message ends in the bare separator). -/
theorem variant_always_grouped :
    (∀ (ls : List Json) (g : GroupMap) (e : List String) (gs : GroupMap) (per : List String),
      foldLessons ls (g, e) = .ok (gs, per) →
      ∀ l ∈ ls, ∀ (key : Json × Json) (v : Json) (m : List String),
        lessonStep l = .ok (key, v, m) → inGroups gs key v) ∧
    validate_lessons c10Catalog = .ok [c10MsgVariant, c10MsgCoverage] := by
  constructor
  · intro ls
    induction ls with
    | nil =>
      intro g e gs per h l hl
      simp at hl
    | cons l0 rest ih =>
      intro g e gs per h l hl key v m hstep
      cases hs : lessonStep l0 with
      | error e2 => simp [foldLessons, processLesson, hs] at h
      | ok r =>
        simp only [foldLessons, processLesson, hs, okMap, okBind] at h
        rcases List.mem_cons.mp hl with heq | hmem
        · subst heq
          have hr : r = (key, v, m) := by
            rw [hs] at hstep
            simpa using hstep
          subst hr
          obtain ⟨-, -, h1, h2, h3, -⟩ := lessonStep_shape l key v m hstep
          exact foldLessons_mono rest _ _ gs per key v (addVariant_self g key v h1 h2 h3) h
        · exact ih _ _ _ _ h l hmem key v m hstep
  · rfl

/-- Witness for C10: the quiz lesson's variant is recorded in its group
after the fold. -/
theorem variant_always_grouped_witness :
    inGroups c2Groups (.str "3", .str "S1") (.str "quiz") :=
  variant_always_grouped.1 [c2Lesson] [] [] c2Groups [c2MsgVariant] rfl c2Lesson
    (List.mem_singleton.mpr rfl) (.str "3", .str "S1") (.str "quiz") [c2MsgVariant] rfl

end AxAcademy
